import Mathlib

/-!
Verification of the request execution engine of superagent-lite
(`src/response.ts`: `Request.execute`, `Request.doFetch`, the retry policy
defaults, the hook pipeline, the body encoder, and the response shortcut
methods).

The embedding is a shallow one: each TypeScript function of the engine is
translated into an executable Lean function.  Asynchrony is irrelevant to the
verified properties (all suspension points are sequential awaits), so promises
become plain values; a rejected promise / thrown JS error becomes
`Except.error`.  The network transport (`fetch`) is abstracted as a
per-attempt oracle supplied in the configuration: no claim relates the
response to the outgoing URL/headers/payload, so the oracle takes only the
attempt index.  Real timers cannot fire inside the model; instead `doFetch`
records whether the attempt started its timeout timer and whether the
`finally` block cleared it, which is exactly what the timer-release claims
are about.
-/

namespace SuperagentLite

/-- Normalized response produced by one attempt (the `Response` class of
`response.ts`, restricted to the fields the verified claims mention; the
`charset` extraction and the response-header map are omitted because no claim
touches them). -/
structure ResponseEnvelope where
  status : Nat
  ok : Bool
  statusText : String
  type : String
  text : String
  body : String
deriving DecidableEq, Repr

/-- Data carried by the `HTTPError` class of `errors.ts`: the (possibly
hook-replaced) response envelope and its status code. -/
structure HTTPErrorData where
  response : ResponseEnvelope
  status : Nat
deriving DecidableEq, Repr

/-- Classified thrown values.  `genericError name` stands for any other JS
error (transport failure, hook failure, ...) identified by its `name`
property, which is all the engine ever inspects. -/
inductive JsError where
  | httpError (e : HTTPErrorData)
  | timeoutError
  | genericError (name : String)
deriving DecidableEq, Repr

/-- The `name` property of a thrown value, as set by the error classes. -/
def errName : JsError → String
  | .httpError _ => "HTTPError"
  | .timeoutError => "TimeoutError"
  | .genericError n => n

/-- Constructor `new HTTPError(response)`: stores the envelope and copies its
status. -/
def mkHTTPError (r : ResponseEnvelope) : HTTPErrorData := ⟨r, r.status⟩

/-- The native (fetch-level) response, before normalization. -/
structure NativeResponse where
  status : Nat
  statusText : String
  contentType : String
  text : String
deriving DecidableEq, Repr

/-- Result of the underlying `fetch` call for one attempt: either a settled
native response or a rejection carrying the rejecting error's `name`. -/
inductive TransportResult where
  | ok (nr : NativeResponse)
  | reject (errorName : String)

/-- The `ok` property of a native fetch response: status in [200, 299]. -/
def nrOk (nr : NativeResponse) : Bool :=
  decide (200 ≤ nr.status) && decide (nr.status ≤ 299)

/-- Header map (`this._headers`): a JS string-keyed object, modelled as a
partial map. -/
def Headers := String → Option String

/-- Read a header (`this._headers[k]`). -/
def headerGet (hs : Headers) (k : String) : Option String := hs k

/-- Write a header (`this._headers[k] = v`). -/
def headerSet (hs : Headers) (k v : String) : Headers :=
  fun x => if x = k then some v else hs x

/-- Delete a header (`delete this._headers[k]`). -/
def headerRemove (hs : Headers) (k : String) : Headers :=
  fun x => if x = k then none else hs x

/-- JS truthiness of a header read: `undefined` and the empty string are
falsy. -/
def headerTruthy (hs : Headers) (k : String) : Bool :=
  match hs k with
  | none => false
  | some v => v != ""

/-- JS `String.prototype.includes`, for the content-type checks: the
pattern occurs as a contiguous substring (an empty pattern is always
contained). -/
def containsStr (s pat : String) : Bool :=
  s.toList.tails.any (fun t => pat.toList.isPrefixOf t)

/-- A request body value: a structured object (`typeof === 'object'`) or any
other value, carried as its string coercion. -/
inductive BodyValue where
  | obj (fields : List (String × String))
  | prim (s : String)
deriving DecidableEq, Repr

/-- One attachment recorded by `.attach(name, file, filename)`.  String,
Buffer and Blob sources are all appended as blobs, so the model keeps one
content string. -/
structure Attachment where
  name : String
  file : String
  filename : Option String
deriving DecidableEq, Repr

/-- One entry of the multipart `FormData`: a plain field or an attached
file. -/
inductive FormPart where
  | fieldPart (name value : String)
  | filePart (name content : String) (filename : Option String)
deriving DecidableEq, Repr

/-- The outgoing payload produced by the body encoder. -/
inductive Payload where
  | empty
  | str (s : String)
  | multipart (parts : List FormPart)
deriving DecidableEq, Repr

/-- `URLSearchParams(obj).toString()` for the form-urlencoded branch.  The
percent-escaping of individual keys/values is not modelled; no claim depends
on it. -/
def urlEncodePairs (ps : List (String × String)) : String :=
  String.intercalate "&" (ps.map (fun p => p.1 ++ "=" ++ p.2))

/-- The `timeout` setting (`TimeoutOptions`); `0` models an unset/falsy
field, matching the JS truthiness test `this._timeout.request ||
this._timeout.response`. -/
structure TimeoutOptions where
  request : Nat := 0
  response : Nat := 0

/-- The `retry` setting (`RetryOptions`); `none` fields fall back to the
engine defaults via `??`. -/
structure RetryOptions where
  limit : Option Nat := none
  methods : Option (List String) := none
  statusCodes : Option (List Nat) := none
  delay : Option (Nat → Nat) := none

/-- `DEFAULT_RETRY_METHODS` from `response.ts`. -/
def DEFAULT_RETRY_METHODS : List String := ["GET", "HEAD", "OPTIONS", "PUT", "DELETE"]

/-- `DEFAULT_RETRY_STATUS_CODES` from `response.ts`. -/
def DEFAULT_RETRY_STATUS_CODES : List Nat := [408, 413, 429, 500, 502, 503, 504]

/-- `defaultRetryDelay` from `response.ts`:
`Math.min(1000 * 2 ** (attemptCount - 1), 30000)` (only ever called with
`attemptCount ≥ 1`). -/
def defaultRetryDelay (attemptCount : Nat) : Nat :=
  min (1000 * 2 ^ (attemptCount - 1)) 30000

/-- The finalized request description consumed by the engine (the relevant
private fields of the `Request` object), plus behavioural models of the
injected collaborators.  Hooks are modelled by their observable effect on the
engine:
* a before-request hook either completes or throws (`Option JsError`; its
  mutations of the request object are not observed by any claim);
* an after-response hook may throw, may return a replacement envelope, or may
  return nothing;
* a before-retry hook receives the failure and the upcoming attempt ordinal
  and either completes or throws;
* a before-error hook receives the current error value — possibly already
  `undefined`, hence `Option` — may throw, and returns a possibly-`undefined`
  value that the engine assigns back unconditionally. -/
structure Config where
  method : String
  headers : Headers := fun _ => none
  body : Option BodyValue := none
  attachments : List Attachment := []
  formFields : List (String × String) := []
  timeout : TimeoutOptions := {}
  retry : RetryOptions := {}
  throwHttpErrors : Bool := true
  parseJson : String → Option String := fun s => some s
  stringifyJson : BodyValue → String := fun _ => ""
  transport : Nat → TransportResult
  beforeRequestHooks : List (Option JsError) := []
  afterResponseHooks : List (ResponseEnvelope → Except JsError (Option ResponseEnvelope)) := []
  beforeRetryHooks : List (JsError → Nat → Option JsError) := []
  beforeErrorHooks : List (Option HTTPErrorData → Except JsError (Option HTTPErrorData)) := []

/-- `this._retry.limit ?? 0`. -/
def limitOf (cfg : Config) : Nat := cfg.retry.limit.getD 0

/-- `this._retry.methods ?? DEFAULT_RETRY_METHODS`. -/
def methodsOf (cfg : Config) : List String := cfg.retry.methods.getD DEFAULT_RETRY_METHODS

/-- `this._retry.statusCodes ?? DEFAULT_RETRY_STATUS_CODES`. -/
def statusCodesOf (cfg : Config) : List Nat :=
  cfg.retry.statusCodes.getD DEFAULT_RETRY_STATUS_CODES

/-- `this._retry.delay ?? defaultRetryDelay`. -/
def delayOf (cfg : Config) : Nat → Nat := cfg.retry.delay.getD defaultRetryDelay

/-- `this._timeout.request || this._timeout.response` (JS `||` on possibly
falsy numbers). -/
def effectiveTimeout (t : TimeoutOptions) : Nat :=
  if t.request != 0 then t.request else t.response

/-- Body preparation block of `doFetch` (lines 312–347 of `response.ts`):
returns the payload together with the header map after its content-type
side effects. -/
def prepareBody (cfg : Config) : Payload × Headers :=
  let hasAttachments := !cfg.attachments.isEmpty
  let hasFormFields := !cfg.formFields.isEmpty
  if hasAttachments || hasFormFields then
    (Payload.multipart
        (cfg.formFields.map (fun p => FormPart.fieldPart p.1 p.2) ++
         cfg.attachments.map (fun a => FormPart.filePart a.name a.file a.filename)),
     headerRemove cfg.headers "content-type")
  else
    match cfg.body with
    | none => (Payload.empty, cfg.headers)
    | some (BodyValue.obj fields) =>
      let contentType := (headerGet cfg.headers "content-type").getD ""
      if containsStr contentType "form-urlencoded" then
        (Payload.str (urlEncodePairs fields), cfg.headers)
      else
        (Payload.str (cfg.stringifyJson (BodyValue.obj fields)),
         if headerTruthy cfg.headers "content-type" then cfg.headers
         else headerSet cfg.headers "content-type" "application/json")
    | some (BodyValue.prim s) => (Payload.str s, cfg.headers)

/-- Construction of the normalized `Response` (text read, conditional JSON
decode with silent fallback, `new Response(...)`). -/
def buildEnvelope (cfg : Config) (nr : NativeResponse) : ResponseEnvelope :=
  let text := nr.text
  let body :=
    if containsStr nr.contentType "application/json" && text != "" then
      match cfg.parseJson text with
      | some v => v
      | none => text
    else text
  { status := nr.status, ok := nrOk nr, statusText := nr.statusText,
    type := ((nr.contentType.splitOn ";").headD "").trim,
    text := text, body := body }

/-- First error thrown while running the before-request hook list in order
(`for (const hook of this._hooks.beforeRequest) await hook(this)`). -/
def firstHookThrow : List (Option JsError) → Option JsError
  | [] => none
  | none :: t => firstHookThrow t
  | some e :: _ => some e

/-- The after-response hook loop: each hook is awaited in order; a truthy
return value replaces the working response (`if (result) response =
result`); a thrown error propagates. -/
def runAfterResponse
    (hooks : List (ResponseEnvelope → Except JsError (Option ResponseEnvelope)))
    (r : ResponseEnvelope) : Except JsError ResponseEnvelope :=
  match hooks with
  | [] => Except.ok r
  | h :: t =>
    match h r with
    | Except.error e => Except.error e
    | Except.ok none => runAfterResponse t r
    | Except.ok (some r2) => runAfterResponse t r2

/-- The before-error hook loop of `doFetch`: `error = await hook(error)` —
the return value is assigned back unconditionally, so a hook returning
nothing makes the current error value `undefined` (`none`). -/
def runBeforeError
    (hooks : List (Option HTTPErrorData → Except JsError (Option HTTPErrorData)))
    (cur : Option HTTPErrorData) : Except JsError (Option HTTPErrorData) :=
  match hooks with
  | [] => Except.ok cur
  | h :: t =>
    match h cur with
    | Except.error e => Except.error e
    | Except.ok v => runBeforeError t v

/-- The before-error chain as §4.3 of the spec words it: a returned
replacement becomes the current error, and a hook returning nothing means
"no change" — the previous error is kept.  This definition follows the
spec's words and exists only to be compared with `runBeforeError`, which is
translated from the source. -/
def specRunBeforeError
    (hooks : List (Option HTTPErrorData → Except JsError (Option HTTPErrorData)))
    (cur : HTTPErrorData) : Except JsError HTTPErrorData :=
  match hooks with
  | [] => Except.ok cur
  | h :: t =>
    match h (some cur) with
    | Except.error e => Except.error e
    | Except.ok none => specRunBeforeError t cur
    | Except.ok (some r) => specRunBeforeError t r

/-- The before-retry hook loop: hooks run in order with the failure and the
upcoming attempt ordinal; the result is the first thrown error (if any)
paired with how many hooks were invoked. -/
def runBeforeRetry (hooks : List (JsError → Nat → Option JsError))
    (e : JsError) (ord : Nat) : Option JsError × Nat :=
  match hooks with
  | [] => (none, 0)
  | h :: t =>
    match h e ord with
    | some thrown => (some thrown, 1)
    | none =>
      let r := runBeforeRetry t e ord
      (r.1, r.2 + 1)

/-- The `catch` block of `doFetch`: an error whose `name` is `"AbortError"`
is re-raised as `TimeoutError`; everything else is re-thrown unchanged. -/
def catchClassify (e : JsError) : JsError :=
  if errName e = "AbortError" then JsError.timeoutError else e

/-- Outcome of one `doFetch` call, together with the fate of the per-attempt
timeout timer: whether it was started and whether it was cleared before the
attempt's scope exited. -/
structure DFResult where
  outcome : Except JsError ResponseEnvelope
  timerStarted : Bool
  timerCleared : Bool

/-- One attempt (`Request.doFetch`).  In source order: body preparation (its
content-type side effects are pure here, see `prepareBody`), abort-controller
and timer setup, the before-request hook loop — which runs *outside* the
`try`/`finally`, so a hook that throws exits without the `finally` clearing
the timer — then the guarded block: transport call, envelope construction,
after-response hooks, throw-on-HTTP-error with the before-error chain, and
the `catch` that maps `AbortError` to `TimeoutError`, with the `finally`
clearing the timer. -/
def doFetch (cfg : Config) (attempt : Nat) : DFResult :=
  let timerStarted := effectiveTimeout cfg.timeout != 0
  match firstHookThrow cfg.beforeRequestHooks with
  | some e => { outcome := Except.error e, timerStarted := timerStarted, timerCleared := false }
  | none =>
    let tryOutcome : Except JsError ResponseEnvelope :=
      match cfg.transport attempt with
      | TransportResult.reject nm => Except.error (JsError.genericError nm)
      | TransportResult.ok nr =>
        match runAfterResponse cfg.afterResponseHooks (buildEnvelope cfg nr) with
        | Except.error e => Except.error e
        | Except.ok resp =>
          if cfg.throwHttpErrors && !nrOk nr then
            match runBeforeError cfg.beforeErrorHooks (some (mkHTTPError resp)) with
            | Except.error e => Except.error e
            | Except.ok (some he) => Except.error (JsError.httpError he)
            | Except.ok none => Except.error (JsError.genericError "TypeError")
          else Except.ok resp
    match tryOutcome with
    | Except.error e =>
      { outcome := Except.error (catchClassify e), timerStarted := timerStarted, timerCleared := true }
    | Except.ok r =>
      { outcome := Except.ok r, timerStarted := timerStarted, timerCleared := true }

/-- 1 when the attempt left a dangling (started but never cleared) timer. -/
def dangOf (df : DFResult) : Nat :=
  if df.timerStarted && !df.timerCleared then 1 else 0

/-- Trace of one engine execution: terminal outcome, number of `doFetch`
calls, one `(upcoming attempt ordinal, hooks invoked)` entry per
before-retry round, the backoff delays waited, and how many attempts leaked
their timer. -/
structure ExecResult where
  outcome : Except JsError ResponseEnvelope
  attempts : Nat
  retryCalls : List (Nat × Nat)
  delays : List Nat
  dangling : Nat
deriving Repr

/-- `lastError instanceof TimeoutError`. -/
def isTimeout : JsError → Bool
  | JsError.timeoutError => true
  | _ => false

/-- `lastError instanceof HTTPError && !retryStatusCodes.includes(lastError.status)`. -/
def isNonRetryableHttp (cfg : Config) : JsError → Bool
  | JsError.httpError he => !((statusCodesOf cfg).contains he.status)
  | _ => false

/-- The retry loop of `Request.execute`, one source iteration per fuel unit
(`for (let attempt = 0; attempt <= retryLimit; attempt++)`); `execute` runs
it with `limit + 1` fuel, so the fuel-0 case is the loop's unreachable final
`throw lastError`.  The `catch` classification follows the source order:
non-retryable method, `TimeoutError`, `HTTPError` with a non-retryable
status, exhausted budget — then the before-retry hooks and the backoff
wait. -/
def execGo (cfg : Config) (attempt : Nat) (lastErr : Option JsError) : Nat → ExecResult
  | 0 =>
    { outcome := Except.error (lastErr.getD (JsError.genericError "null")),
      attempts := 0, retryCalls := [], delays := [], dangling := 0 }
  | fuel + 1 =>
    match (doFetch cfg attempt).outcome with
    | Except.ok r =>
      { outcome := Except.ok r, attempts := 1, retryCalls := [], delays := [],
        dangling := dangOf (doFetch cfg attempt) }
    | Except.error e =>
      if !((methodsOf cfg).contains cfg.method) then
        { outcome := Except.error e, attempts := 1, retryCalls := [], delays := [],
          dangling := dangOf (doFetch cfg attempt) }
      else if isTimeout e then
        { outcome := Except.error e, attempts := 1, retryCalls := [], delays := [],
          dangling := dangOf (doFetch cfg attempt) }
      else if isNonRetryableHttp cfg e then
        { outcome := Except.error e, attempts := 1, retryCalls := [], delays := [],
          dangling := dangOf (doFetch cfg attempt) }
      else if limitOf cfg ≤ attempt then
        { outcome := Except.error e, attempts := 1, retryCalls := [], delays := [],
          dangling := dangOf (doFetch cfg attempt) }
      else
        match runBeforeRetry cfg.beforeRetryHooks e (attempt + 1) with
        | (some thrown, n) =>
          { outcome := Except.error thrown, attempts := 1,
            retryCalls := [(attempt + 1, n)], delays := [],
            dangling := dangOf (doFetch cfg attempt) }
        | (none, n) =>
          let rest := execGo cfg (attempt + 1) (some e) fuel
          { outcome := rest.outcome, attempts := rest.attempts + 1,
            retryCalls := (attempt + 1, n) :: rest.retryCalls,
            delays := delayOf cfg (attempt + 1) :: rest.delays,
            dangling := dangOf (doFetch cfg attempt) + rest.dangling }

/-- `Request.execute`: the retry loop from attempt 0 with the full budget. -/
def execute (cfg : Config) : ExecResult := execGo cfg 0 none (limitOf cfg + 1)

/-- A single direct `doFetch` call, as performed by the response shortcut
methods that bypass `execute`: one attempt, no retry machinery. -/
def singleAttempt (cfg : Config) : ExecResult :=
  let df := doFetch cfg 0
  { outcome := df.outcome, attempts := 1, retryCalls := [], delays := [],
    dangling := dangOf df }

/-- `Request.blob()`: `await this.doFetch()`. -/
def blobRun (cfg : Config) : ExecResult := singleAttempt cfg

/-- `Request.arrayBuffer()`: `await this.doFetch()`. -/
def arrayBufferRun (cfg : Config) : ExecResult := singleAttempt cfg

/-- `Request.then(...)`: `this.execute().then(...)`. -/
def thenRun (cfg : Config) : ExecResult := execute cfg

/-- `Request.json()`: `await this.execute()` then `.body`. -/
def jsonRun (cfg : Config) : ExecResult := execute cfg

/-- `Request.text()`: `await this.execute()` then `.text`. -/
def textRun (cfg : Config) : ExecResult := execute cfg

/-- `Request.end(cb)`: `this.execute().then(...).catch(...)`. -/
def endRun (cfg : Config) : ExecResult := execute cfg

/-! Concrete fixtures used to evaluate the engine at specific inputs. -/

/-- A native 500 response (retryable status under the default policy). -/
def nr500w : NativeResponse :=
  { status := 500, statusText := "Internal Server Error", contentType := "text/plain", text := "boom" }

/-- A native 200 response. -/
def nr200w : NativeResponse :=
  { status := 200, statusText := "OK", contentType := "application/json", text := "ход" }

/-- GET request, limit 2, transport always 500, one silent before-retry
hook. -/
def cfgC1 : Config :=
  { method := "GET", retry := { limit := some 2 },
    transport := fun _ => TransportResult.ok nr500w,
    beforeRetryHooks := [fun _ _ => none] }

/-- GET request, limit 1, whose first before-request hook throws. -/
def cfgC2a : Config :=
  { method := "GET", retry := { limit := some 1 },
    transport := fun _ => TransportResult.ok nr200w,
    beforeRequestHooks := [some (JsError.genericError "Boom")] }

/-- POST request, limit 3, whose first before-request hook throws. -/
def cfgC2b : Config :=
  { method := "POST", retry := { limit := some 3 },
    transport := fun _ => TransportResult.ok nr200w,
    beforeRequestHooks := [some (JsError.genericError "Boom")] }

/-- GET request with a 100 ms timeout whose before-request hook throws. -/
def cfgC3bad : Config :=
  { method := "GET", timeout := { request := 100 },
    transport := fun _ => TransportResult.ok nr200w,
    beforeRequestHooks := [some (JsError.genericError "Error")] }

/-- GET request with a 100 ms timeout, a completing before-request hook, and
a failing transport. -/
def cfgC3ok : Config :=
  { method := "GET", timeout := { request := 100 },
    transport := fun _ => TransportResult.reject "NetworkError",
    beforeRequestHooks := [none] }

/-- Request whose single before-error hook returns nothing. -/
def cfgC4x : Config :=
  { method := "GET", transport := fun _ => TransportResult.ok nr500w,
    beforeErrorHooks := [fun _ => Except.ok none] }

/-- A replacement error for the before-error witness. -/
def heC4 : HTTPErrorData :=
  { response := { status := 599, ok := false, statusText := "replaced", type := "", text := "", body := "" },
    status := 599 }

/-- Request whose single before-error hook returns the replacement `heC4`. -/
def cfgC4w : Config :=
  { method := "GET", transport := fun _ => TransportResult.ok nr500w,
    beforeErrorHooks := [fun _ => Except.ok (some heC4)] }

/-- POST request (not retryable by default), limit 3, transport always
500. -/
def cfgC5w : Config :=
  { method := "POST", retry := { limit := some 3 },
    transport := fun _ => TransportResult.ok nr500w }

/-- GET request, limit 5, whose transport rejects with `AbortError`. -/
def cfgC6w : Config :=
  { method := "GET", retry := { limit := some 5 },
    transport := fun _ => TransportResult.reject "AbortError" }

/-- GET request, limit 2, default delay, transport always 500. -/
def cfgC7d : Config :=
  { method := "GET", retry := { limit := some 2 },
    transport := fun _ => TransportResult.ok nr500w }

/-- GET request, limit 2, custom delay function, transport always 500. -/
def cfgC7c : Config :=
  { method := "GET", retry := { limit := some 2, delay := some (fun n => 7 * n) },
    transport := fun _ => TransportResult.ok nr500w }

/-- The replacement envelope returned by the after-response witness hook. -/
def repC8 : ResponseEnvelope :=
  { status := 599, ok := false, statusText := "patched", type := "text/x", text := "patched", body := "patched" }

/-- Failing request whose after-response hook replaces the envelope with
`repC8`. -/
def cfgC8f : Config :=
  { method := "GET", transport := fun _ => TransportResult.ok nr500w,
    afterResponseHooks := [fun _ => Except.ok (some repC8)] }

/-- Succeeding request whose after-response hook replaces the envelope with
`repC8`. -/
def cfgC8s : Config :=
  { method := "GET", transport := fun _ => TransportResult.ok nr200w,
    afterResponseHooks := [fun _ => Except.ok (some repC8)] }

/-- Structured body, no content-type header, no attachments or form
fields. -/
def cfgC9a : Config :=
  { method := "POST", body := some (BodyValue.obj [("a", "1"), ("b", "2")]),
    stringifyJson := fun _ => "JSONSTR",
    transport := fun _ => TransportResult.ok nr200w }

/-- Structured body with a form field and an attachment, and a previously
set content-type header. -/
def cfgC9b : Config :=
  { method := "POST",
    headers := fun k => if k = "content-type" then some "application/json" else none,
    body := some (BodyValue.obj [("a", "1")]),
    formFields := [("f", "v")],
    attachments := [{ name := "file1", file := "DATA", filename := some "a.txt" }],
    transport := fun _ => TransportResult.ok nr200w }

/-- GET request, limit 2, transport always 500 (for the shortcut-method
contrast). -/
def cfgC10 : Config :=
  { method := "GET", retry := { limit := some 2 },
    transport := fun _ => TransportResult.ok nr500w }

/-! Helper lemmas shared by the claim theorems. -/

/-- When no before-retry hook throws, the hook loop completes and invokes
every registered hook once. -/
theorem runBeforeRetry_noThrow (hooks : List (JsError → Nat → Option JsError))
    (e : JsError) (ord : Nat) (h : ∀ f ∈ hooks, ∀ e' n, f e' n = none) :
    runBeforeRetry hooks e ord = (none, hooks.length) := by
  induction hooks with
  | nil => rfl
  | cons f t ih =>
    have hf : f e ord = none := h f (List.mem_cons_self f t) e ord
    have ht : ∀ g ∈ t, ∀ e' n, g e' n = none := fun g hg => h g (List.mem_cons_of_mem f hg)
    simp [runBeforeRetry, hf, ih ht]

/-- A failing attempt with no registered hooks raises the `HTTPError` built
from the normalized envelope. -/
theorem doFetch_outcome_http (cfg : Config) (a : Nat) (nr : NativeResponse)
    (hbr : cfg.beforeRequestHooks = [])
    (har : cfg.afterResponseHooks = [])
    (hbe : cfg.beforeErrorHooks = [])
    (hth : cfg.throwHttpErrors = true)
    (htr : cfg.transport a = TransportResult.ok nr)
    (hok : nrOk nr = false) :
    (doFetch cfg a).outcome =
      Except.error (JsError.httpError (mkHTTPError (buildEnvelope cfg nr))) := by
  unfold doFetch
  rw [hbr, har, hbe, htr]
  simp [firstHookThrow, runAfterResponse, hth, hok, runBeforeError, catchClassify, errName]

/-- A before-request hook that throws exits `doFetch` before the guarded
block: the error propagates unclassified and the timer is not cleared. -/
theorem doFetch_beforeRequestThrow (cfg : Config) (a : Nat) (e : JsError)
    (rest : List (Option JsError)) (h : cfg.beforeRequestHooks = some e :: rest) :
    doFetch cfg a =
      { outcome := Except.error e,
        timerStarted := effectiveTimeout cfg.timeout != 0, timerCleared := false } := by
  unfold doFetch
  rw [h]
  rfl

/-- One loop iteration that ends the execution: the attempt failed and one
of the four terminal tests of the `catch` block holds. -/
theorem execGo_terminalStep (cfg : Config) (attempt : Nat) (lastErr : Option JsError)
    (fuel : Nat) (e : JsError)
    (he : (doFetch cfg attempt).outcome = Except.error e)
    (hterm : (methodsOf cfg).contains cfg.method = false ∨ isTimeout e = true ∨
      isNonRetryableHttp cfg e = true ∨ limitOf cfg ≤ attempt) :
    execGo cfg attempt lastErr (fuel + 1) =
      { outcome := Except.error e, attempts := 1, retryCalls := [], delays := [],
        dangling := dangOf (doFetch cfg attempt) } := by
  simp only [execGo, he]
  rcases hterm with h | h | h | h
  · rw [h]
    simp
  · rw [h]
    cases hc : (methodsOf cfg).contains cfg.method <;> simp
  · rw [h]
    cases hc : (methodsOf cfg).contains cfg.method <;> cases ht2 : isTimeout e <;> simp
  · cases hc : (methodsOf cfg).contains cfg.method <;> cases ht2 : isTimeout e <;>
      cases hh2 : isNonRetryableHttp cfg e <;> simp [h]

/-- One loop iteration that retries: the attempt failed retryably, budget
remains, and no before-retry hook throws. -/
theorem execGo_retryStep (cfg : Config) (attempt : Nat) (lastErr : Option JsError)
    (fuel : Nat) (e : JsError) (n : Nat)
    (he : (doFetch cfg attempt).outcome = Except.error e)
    (hm : (methodsOf cfg).contains cfg.method = true)
    (ht : isTimeout e = false) (hh : isNonRetryableHttp cfg e = false)
    (hlt : ¬ limitOf cfg ≤ attempt)
    (hrun : runBeforeRetry cfg.beforeRetryHooks e (attempt + 1) = (none, n)) :
    execGo cfg attempt lastErr (fuel + 1) =
      { outcome := (execGo cfg (attempt + 1) (some e) fuel).outcome,
        attempts := (execGo cfg (attempt + 1) (some e) fuel).attempts + 1,
        retryCalls := (attempt + 1, n) :: (execGo cfg (attempt + 1) (some e) fuel).retryCalls,
        delays := delayOf cfg (attempt + 1) :: (execGo cfg (attempt + 1) (some e) fuel).delays,
        dangling := dangOf (doFetch cfg attempt) + (execGo cfg (attempt + 1) (some e) fuel).dangling } := by
  simp only [execGo, he]
  rw [hm, ht, hh, hrun]
  simp [hlt]

/-- Master loop lemma: when the method is retryable, no before-retry hook
throws, and every attempt fails with a retryably-classified error, the loop
consumes its whole fuel, records one before-retry round and one backoff
delay per retry with consecutive ordinals, and ends with the last attempt's
error. -/
theorem execGo_allFail (cfg : Config)
    (hm : (methodsOf cfg).contains cfg.method = true)
    (hhk : ∀ f ∈ cfg.beforeRetryHooks, ∀ e' n, f e' n = none)
    (hfail : ∀ a, ∃ e, (doFetch cfg a).outcome = Except.error e ∧
        isTimeout e = false ∧ isNonRetryableHttp cfg e = false) :
    ∀ fuel attempt lastErr, attempt + fuel = limitOf cfg →
      (execGo cfg attempt lastErr (fuel + 1)).attempts = fuel + 1 ∧
      (execGo cfg attempt lastErr (fuel + 1)).retryCalls =
        (List.range' attempt fuel).map (fun i => (i + 1, cfg.beforeRetryHooks.length)) ∧
      (execGo cfg attempt lastErr (fuel + 1)).delays =
        (List.range' attempt fuel).map (fun i => delayOf cfg (i + 1)) ∧
      (execGo cfg attempt lastErr (fuel + 1)).outcome = (doFetch cfg (attempt + fuel)).outcome := by
  intro fuel
  induction fuel with
  | zero =>
    intro attempt lastErr hlim
    obtain ⟨e, he, ht, hh⟩ := hfail attempt
    rw [execGo_terminalStep cfg attempt lastErr 0 e he (Or.inr (Or.inr (Or.inr (by omega))))]
    simp [he]
  | succ fuel ih =>
    intro attempt lastErr hlim
    obtain ⟨e, he, ht, hh⟩ := hfail attempt
    have hlt : ¬ limitOf cfg ≤ attempt := by omega
    have hrun := runBeforeRetry_noThrow cfg.beforeRetryHooks e (attempt + 1) hhk
    have ihh := ih (attempt + 1) (some e) (by omega)
    have harith : attempt + 1 + fuel = attempt + (fuel + 1) := by omega
    rw [harith] at ihh
    rw [execGo_retryStep cfg attempt lastErr (fuel + 1) e cfg.beforeRetryHooks.length he hm ht hh hlt hrun]
    simp [ihh.1, ihh.2.1, ihh.2.2.1, ihh.2.2.2, List.range'_succ]

/-! Claim theorems. -/

/-- C1: for every retry limit `N ≥ 0`, with a retryable method,
throw-on-HTTP-error enabled, and a transport whose every response carries a
status in the retryable set (and outside 2xx, so an `HTTPError` is thrown),
`execute` performs exactly `N + 1` attempts, runs each registered
before-retry hook exactly `N` times with upcoming attempt ordinals `1..N`,
and raises `HTTPError`. -/
theorem C1_retry_exhaustion (cfg : Config)
    (hm : (methodsOf cfg).contains cfg.method = true)
    (hth : cfg.throwHttpErrors = true)
    (hbr : cfg.beforeRequestHooks = [])
    (har : cfg.afterResponseHooks = [])
    (hbe : cfg.beforeErrorHooks = [])
    (hhk : ∀ f ∈ cfg.beforeRetryHooks, ∀ e' n, f e' n = none)
    (htr : ∀ a, ∃ nr, cfg.transport a = TransportResult.ok nr ∧
        (statusCodesOf cfg).contains nr.status = true ∧ nrOk nr = false) :
    (execute cfg).attempts = limitOf cfg + 1 ∧
    (execute cfg).retryCalls =
      (List.range (limitOf cfg)).map (fun i => (i + 1, cfg.beforeRetryHooks.length)) ∧
    ∃ he, (execute cfg).outcome = Except.error (JsError.httpError he) := by
  have hfail : ∀ a, ∃ e, (doFetch cfg a).outcome = Except.error e ∧
      isTimeout e = false ∧ isNonRetryableHttp cfg e = false := by
    intro a
    obtain ⟨nr, h1, h2, h3⟩ := htr a
    refine ⟨JsError.httpError (mkHTTPError (buildEnvelope cfg nr)),
      doFetch_outcome_http cfg a nr hbr har hbe hth h1 h3, rfl, ?_⟩
    have hst : isNonRetryableHttp cfg (JsError.httpError (mkHTTPError (buildEnvelope cfg nr))) =
        !((statusCodesOf cfg).contains nr.status) := rfl
    rw [hst, h2]
    rfl
  have hmaster := execGo_allFail cfg hm hhk hfail (limitOf cfg) 0 none (by omega)
  refine ⟨hmaster.1, ?_, ?_⟩
  · rw [show execute cfg = execGo cfg 0 none (limitOf cfg + 1) from rfl, hmaster.2.1,
      List.range_eq_range']
  · obtain ⟨nr, h1, h2, h3⟩ := htr (0 + limitOf cfg)
    exact ⟨mkHTTPError (buildEnvelope cfg nr),
      by rw [show execute cfg = execGo cfg 0 none (limitOf cfg + 1) from rfl, hmaster.2.2.2,
        doFetch_outcome_http cfg _ nr hbr har hbe hth h1 h3]⟩

/-- Witness for C1: GET with limit 2 against an always-500 transport makes 3
attempts, runs its single before-retry hook at ordinals 1 and 2, and ends
with `HTTPError`. -/
theorem C1_retry_exhaustion_witness :
    (execute cfgC1).attempts = 3 ∧
    (execute cfgC1).retryCalls = [(1, 1), (2, 1)] ∧
    ∃ he, (execute cfgC1).outcome = Except.error (JsError.httpError he) :=
  C1_retry_exhaustion cfgC1 rfl rfl rfl rfl rfl
    (by intro f hf e' n; simp [cfgC1] at hf; subst hf; rfl)
    (fun a => ⟨nr500w, rfl, rfl, rfl⟩)

/-- C5: when the request method is not in the retry allow-list, a failing
attempt whose `HTTPError` carries a retryable status is terminal: exactly
one attempt, no before-retry round, no backoff wait, the `HTTPError` raised
— for every retry limit. -/
theorem C5_non_retryable_method_terminal (cfg : Config) (he : HTTPErrorData)
    (hm : (methodsOf cfg).contains cfg.method = false)
    (hs : (statusCodesOf cfg).contains he.status = true)
    (h : (doFetch cfg 0).outcome = Except.error (JsError.httpError he)) :
    (execute cfg).attempts = 1 ∧ (execute cfg).retryCalls = [] ∧
    (execute cfg).delays = [] ∧
    (execute cfg).outcome = Except.error (JsError.httpError he) := by
  have hstep := execGo_terminalStep cfg 0 none (limitOf cfg) (JsError.httpError he) h (Or.inl hm)
  rw [show execute cfg = execGo cfg 0 none (limitOf cfg + 1) from rfl, hstep]
  simp

/-- Witness for C5: POST with limit 3 against an always-500 transport makes
exactly one attempt and raises the `HTTPError` at once. -/
theorem C5_non_retryable_method_terminal_witness :
    (execute cfgC5w).attempts = 1 ∧ (execute cfgC5w).retryCalls = [] ∧
    (execute cfgC5w).delays = [] ∧
    (execute cfgC5w).outcome =
      Except.error (JsError.httpError (mkHTTPError (buildEnvelope cfgC5w nr500w))) :=
  C5_non_retryable_method_terminal cfgC5w (mkHTTPError (buildEnvelope cfgC5w nr500w)) rfl rfl rfl

/-- C6: whenever the current attempt ends in `TimeoutError`, the execution
loop re-raises it immediately: one attempt from that point, no before-retry
round, no backoff delay, whatever the remaining budget (`fuel`) is. -/
theorem C6_timeout_never_retried (cfg : Config) (attempt : Nat)
    (lastErr : Option JsError) (fuel : Nat)
    (h : (doFetch cfg attempt).outcome = Except.error JsError.timeoutError) :
    execGo cfg attempt lastErr (fuel + 1) =
      { outcome := Except.error JsError.timeoutError, attempts := 1, retryCalls := [],
        delays := [], dangling := dangOf (doFetch cfg attempt) } :=
  execGo_terminalStep cfg attempt lastErr fuel JsError.timeoutError h (Or.inr (Or.inl rfl))

/-- Witness for C6: a GET with retry limit 5 whose transport rejects with
`AbortError` raises `TimeoutError` after exactly one attempt. -/
theorem C6_timeout_never_retried_witness :
    execute cfgC6w =
      { outcome := Except.error JsError.timeoutError, attempts := 1, retryCalls := [],
        delays := [], dangling := 0 } :=
  C6_timeout_never_retried cfgC6w 0 none 5 rfl

/-- C2 counterexample: a thrown hook error is not always terminal.  A GET
request with retry limit 1 whose before-request hook always throws performs
a second attempt before the hook error reaches the caller, contradicting
"no further attempt is made ... regardless of the request method or
remaining retry budget". -/
theorem C2_counterexample :
    (execute cfgC2a).attempts = 2 ∧
    (execute cfgC2a).retryCalls = [(1, 0)] ∧
    (execute cfgC2a).outcome = Except.error (JsError.genericError "Boom") :=
  ⟨rfl, rfl, rfl⟩

/-- C2 as amended: an error thrown by a before-request hook propagates to
the caller as the outcome, but it is classified like a transport failure
rather than being specially terminal: with a retryable method the failed
attempt is retried until the budget is exhausted (`N + 1` attempts in
total), and it is terminal after one attempt exactly when the method is not
retryable. -/
theorem C2_hook_error_retry_classified (cfg : Config) (nm : String)
    (hbr : cfg.beforeRequestHooks = [some (JsError.genericError nm)])
    (hhk : ∀ f ∈ cfg.beforeRetryHooks, ∀ e' n, f e' n = none) :
    ((methodsOf cfg).contains cfg.method = true →
      (execute cfg).attempts = limitOf cfg + 1 ∧
      (execute cfg).outcome = Except.error (JsError.genericError nm)) ∧
    ((methodsOf cfg).contains cfg.method = false →
      (execute cfg).attempts = 1 ∧
      (execute cfg).outcome = Except.error (JsError.genericError nm)) := by
  have hdf : ∀ a, (doFetch cfg a).outcome = Except.error (JsError.genericError nm) := by
    intro a
    rw [doFetch_beforeRequestThrow cfg a (JsError.genericError nm) [] hbr]
  constructor
  · intro hm
    have hfail : ∀ a, ∃ e, (doFetch cfg a).outcome = Except.error e ∧
        isTimeout e = false ∧ isNonRetryableHttp cfg e = false :=
      fun a => ⟨JsError.genericError nm, hdf a, rfl, rfl⟩
    have hmaster := execGo_allFail cfg hm hhk hfail (limitOf cfg) 0 none (by omega)
    refine ⟨hmaster.1, ?_⟩
    rw [show execute cfg = execGo cfg 0 none (limitOf cfg + 1) from rfl, hmaster.2.2.2, hdf]
  · intro hm
    have hstep := execGo_terminalStep cfg 0 none (limitOf cfg) (JsError.genericError nm)
      (hdf 0) (Or.inl hm)
    rw [show execute cfg = execGo cfg 0 none (limitOf cfg + 1) from rfl, hstep]
    simp

/-- Witness for the amended C2: the throwing hook is retried on a GET with
limit 1 (2 attempts) and terminal on a POST with limit 3 (1 attempt). -/
theorem C2_hook_error_retry_classified_witness :
    ((execute cfgC2a).attempts = 2 ∧
      (execute cfgC2a).outcome = Except.error (JsError.genericError "Boom")) ∧
    ((execute cfgC2b).attempts = 1 ∧
      (execute cfgC2b).outcome = Except.error (JsError.genericError "Boom")) :=
  ⟨(C2_hook_error_retry_classified cfgC2a "Boom" rfl
      (by intro f hf e' n; simp [cfgC2a] at hf)).1 rfl,
   (C2_hook_error_retry_classified cfgC2b "Boom" rfl
      (by intro f hf e' n; simp [cfgC2b] at hf)).2 rfl⟩

/-- C3 (code-bug evidence): with a timeout configured, an attempt whose
before-request hook throws starts the timer but exits without clearing it —
the hook loop runs after the timer is armed yet outside the
`try`/`finally` — while an attempt that reaches the guarded block clears
the timer even when the transport fails. -/
theorem C3_timer_leak_on_hook_throw :
    (doFetch cfgC3bad 0).timerStarted = true ∧
    (doFetch cfgC3bad 0).timerCleared = false ∧
    (doFetch cfgC3ok 0).timerStarted = true ∧
    (doFetch cfgC3ok 0).timerCleared = true :=
  ⟨rfl, rfl, rfl, rfl⟩

/-- C7: under the always-failing retryable scenario, the engine waits the
policy's delay function applied to the upcoming attempt ordinal before each
retry; without a custom delay that function is `defaultRetryDelay`, a
custom delay function is used verbatim, and `defaultRetryDelay n` equals
`min (1000 · 2^(n-1)) 30000` milliseconds. -/
theorem C7_backoff_delays (cfg : Config)
    (hm : (methodsOf cfg).contains cfg.method = true)
    (hth : cfg.throwHttpErrors = true)
    (hbr : cfg.beforeRequestHooks = [])
    (har : cfg.afterResponseHooks = [])
    (hbe : cfg.beforeErrorHooks = [])
    (hhk : ∀ f ∈ cfg.beforeRetryHooks, ∀ e' n, f e' n = none)
    (htr : ∀ a, ∃ nr, cfg.transport a = TransportResult.ok nr ∧
        (statusCodesOf cfg).contains nr.status = true ∧ nrOk nr = false) :
    (execute cfg).delays = (List.range (limitOf cfg)).map (fun i => delayOf cfg (i + 1)) ∧
    (cfg.retry.delay = none → delayOf cfg = defaultRetryDelay) ∧
    (∀ f, cfg.retry.delay = some f → delayOf cfg = f) ∧
    (∀ n, defaultRetryDelay n = min (1000 * 2 ^ (n - 1)) 30000) := by
  have hfail : ∀ a, ∃ e, (doFetch cfg a).outcome = Except.error e ∧
      isTimeout e = false ∧ isNonRetryableHttp cfg e = false := by
    intro a
    obtain ⟨nr, h1, h2, h3⟩ := htr a
    refine ⟨JsError.httpError (mkHTTPError (buildEnvelope cfg nr)),
      doFetch_outcome_http cfg a nr hbr har hbe hth h1 h3, rfl, ?_⟩
    have hst : isNonRetryableHttp cfg (JsError.httpError (mkHTTPError (buildEnvelope cfg nr))) =
        !((statusCodesOf cfg).contains nr.status) := rfl
    rw [hst, h2]
    rfl
  have hmaster := execGo_allFail cfg hm hhk hfail (limitOf cfg) 0 none (by omega)
  refine ⟨?_, ?_, ?_, fun _ => rfl⟩
  · rw [show execute cfg = execGo cfg 0 none (limitOf cfg + 1) from rfl, hmaster.2.2.1,
      List.range_eq_range']
  · intro h
    simp [delayOf, h]
  · intro f h
    simp [delayOf, h]

/-- Witness for C7: with the default policy and limit 2 the waited delays
are 1000 ms then 2000 ms; with a custom delay `n ↦ 7n` they are 7 then
14. -/
theorem C7_backoff_delays_witness :
    ((execute cfgC7d).delays = [1000, 2000] ∧ delayOf cfgC7d = defaultRetryDelay) ∧
    (execute cfgC7c).delays = [7, 14] :=
  ⟨⟨(C7_backoff_delays cfgC7d rfl rfl rfl rfl rfl
        (by intro f hf e' n; simp [cfgC7d] at hf)
        (fun a => ⟨nr500w, rfl, rfl, rfl⟩)).1,
    (C7_backoff_delays cfgC7d rfl rfl rfl rfl rfl
        (by intro f hf e' n; simp [cfgC7d] at hf)
        (fun a => ⟨nr500w, rfl, rfl, rfl⟩)).2.1 rfl⟩,
   (C7_backoff_delays cfgC7c rfl rfl rfl rfl rfl
        (by intro f hf e' n; simp [cfgC7c] at hf)
        (fun a => ⟨nr500w, rfl, rfl, rfl⟩)).1⟩

/-- C10: `blob()` and `arrayBuffer()` run one direct `doFetch` with no
retry round and no backoff wait, for every configuration, while `then()`,
`json()`, `text()` and `end()` go through `execute`, which under the
always-failing retryable scenario performs `limit + 1` attempts. -/
theorem C10_shortcuts_bypass_loop (cfg : Config)
    (hm : (methodsOf cfg).contains cfg.method = true)
    (hth : cfg.throwHttpErrors = true)
    (hbr : cfg.beforeRequestHooks = [])
    (har : cfg.afterResponseHooks = [])
    (hbe : cfg.beforeErrorHooks = [])
    (hhk : ∀ f ∈ cfg.beforeRetryHooks, ∀ e' n, f e' n = none)
    (htr : ∀ a, ∃ nr, cfg.transport a = TransportResult.ok nr ∧
        (statusCodesOf cfg).contains nr.status = true ∧ nrOk nr = false) :
    (blobRun cfg).attempts = 1 ∧ (blobRun cfg).retryCalls = [] ∧
    (blobRun cfg).delays = [] ∧ arrayBufferRun cfg = blobRun cfg ∧
    thenRun cfg = execute cfg ∧ jsonRun cfg = execute cfg ∧
    textRun cfg = execute cfg ∧ endRun cfg = execute cfg ∧
    (execute cfg).attempts = limitOf cfg + 1 := by
  have hfail : ∀ a, ∃ e, (doFetch cfg a).outcome = Except.error e ∧
      isTimeout e = false ∧ isNonRetryableHttp cfg e = false := by
    intro a
    obtain ⟨nr, h1, h2, h3⟩ := htr a
    refine ⟨JsError.httpError (mkHTTPError (buildEnvelope cfg nr)),
      doFetch_outcome_http cfg a nr hbr har hbe hth h1 h3, rfl, ?_⟩
    have hst : isNonRetryableHttp cfg (JsError.httpError (mkHTTPError (buildEnvelope cfg nr))) =
        !((statusCodesOf cfg).contains nr.status) := rfl
    rw [hst, h2]
    rfl
  exact ⟨rfl, rfl, rfl, rfl, rfl, rfl, rfl, rfl,
    (execGo_allFail cfg hm hhk hfail (limitOf cfg) 0 none (by omega)).1⟩

/-- Witness for C10: against an always-500 transport with limit 2,
`blob()` makes one attempt with no retry rounds while `execute` makes
three. -/
theorem C10_shortcuts_bypass_loop_witness :
    (blobRun cfgC10).attempts = 1 ∧ (blobRun cfgC10).retryCalls = [] ∧
    (blobRun cfgC10).delays = [] ∧ arrayBufferRun cfgC10 = blobRun cfgC10 ∧
    thenRun cfgC10 = execute cfgC10 ∧ jsonRun cfgC10 = execute cfgC10 ∧
    textRun cfgC10 = execute cfgC10 ∧ endRun cfgC10 = execute cfgC10 ∧
    (execute cfgC10).attempts = 3 :=
  C10_shortcuts_bypass_loop cfgC10 rfl rfl rfl rfl rfl
    (by intro f hf e' n; simp [cfgC10] at hf)
    (fun a => ⟨nr500w, rfl, rfl, rfl⟩)

/-- Decomposition of a `doFetch` that runs no throwing before-request hook
and whose transport settles: the outcome is determined by the after-response
chain, the throw-on-HTTP-error test on the native response, and the
before-error chain, with the `catch` classification applied to thrown
values. -/
theorem doFetch_okTransport (cfg : Config) (a : Nat) (nr : NativeResponse)
    (hbr : cfg.beforeRequestHooks = [])
    (htr : cfg.transport a = TransportResult.ok nr) :
    (doFetch cfg a).outcome =
      (match runAfterResponse cfg.afterResponseHooks (buildEnvelope cfg nr) with
       | Except.error e => Except.error (catchClassify e)
       | Except.ok resp =>
         if cfg.throwHttpErrors && !nrOk nr then
           match runBeforeError cfg.beforeErrorHooks (some (mkHTTPError resp)) with
           | Except.error e => Except.error (catchClassify e)
           | Except.ok (some he) => Except.error (JsError.httpError he)
           | Except.ok none => Except.error (JsError.genericError "TypeError")
         else Except.ok resp) := by
  unfold doFetch
  rw [hbr, htr]
  cases har : runAfterResponse cfg.afterResponseHooks (buildEnvelope cfg nr) with
  | error e => simp [firstHookThrow, har]
  | ok resp =>
    cases hthv : cfg.throwHttpErrors && !nrOk nr
    · simp [firstHookThrow, har, hthv]
    · cases hch : runBeforeError cfg.beforeErrorHooks (some (mkHTTPError resp)) with
      | error e => simp [firstHookThrow, har, hthv, hch]
      | ok v =>
        cases v with
        | none =>
          simp [firstHookThrow, har, hthv, hch]
          rfl
        | some he =>
          simp [firstHookThrow, har, hthv, hch, catchClassify, errName]

/-- C4 counterexample: a before-error hook that returns nothing does not
leave the previous error in place.  With a single such hook and a failing
response, the raised value is not the original `HTTPError` — the engine
ends up throwing the undefined current value, which surfaces as a
`TypeError`. -/
theorem C4_counterexample :
    (doFetch cfgC4x 0).outcome = Except.error (JsError.genericError "TypeError") ∧
    (doFetch cfgC4x 0).outcome ≠
      Except.error (JsError.httpError (mkHTTPError (buildEnvelope cfgC4x nr500w))) := by
  have h1 : (doFetch cfgC4x 0).outcome = Except.error (JsError.genericError "TypeError") := rfl
  refine ⟨h1, ?_⟩
  rw [h1]
  simp

/-- C4 as amended: each before-error hook's return value unconditionally
becomes the current error — a returned replacement is passed to subsequent
hooks and raised, but a hook returning nothing makes the current value
`undefined` with no fallback to the previous error, and if the chain ends
with `undefined` the engine raises a `TypeError`, not the previous
`HTTPError`. -/
theorem C4_before_error_unconditional (cfg : Config) (a : Nat) (nr : NativeResponse)
    (final : ResponseEnvelope)
    (hbr : cfg.beforeRequestHooks = [])
    (htr : cfg.transport a = TransportResult.ok nr)
    (hth : cfg.throwHttpErrors = true)
    (hok : nrOk nr = false)
    (har : runAfterResponse cfg.afterResponseHooks (buildEnvelope cfg nr) = Except.ok final) :
    (∀ he, runBeforeError cfg.beforeErrorHooks (some (mkHTTPError final)) = Except.ok (some he) →
        (doFetch cfg a).outcome = Except.error (JsError.httpError he)) ∧
    (runBeforeError cfg.beforeErrorHooks (some (mkHTTPError final)) = Except.ok none →
        (doFetch cfg a).outcome = Except.error (JsError.genericError "TypeError")) ∧
    (∀ (h : Option HTTPErrorData → Except JsError (Option HTTPErrorData))
        (t : List (Option HTTPErrorData → Except JsError (Option HTTPErrorData)))
        (cur : Option HTTPErrorData) (rep : HTTPErrorData),
        h cur = Except.ok (some rep) → runBeforeError (h :: t) cur = runBeforeError t (some rep)) ∧
    (∀ (h : Option HTTPErrorData → Except JsError (Option HTTPErrorData))
        (t : List (Option HTTPErrorData → Except JsError (Option HTTPErrorData)))
        (cur : Option HTTPErrorData),
        h cur = Except.ok none → runBeforeError (h :: t) cur = runBeforeError t none) := by
  refine ⟨?_, ?_, ?_, ?_⟩
  · intro he hch
    rw [doFetch_okTransport cfg a nr hbr htr, har]
    simp [hth, hok, hch]
  · intro hch
    rw [doFetch_okTransport cfg a nr hbr htr, har]
    simp [hth, hok, hch]
  · intro h t cur rep hh
    simp [runBeforeError, hh]
  · intro h t cur hh
    simp [runBeforeError, hh]

/-- Witness for the amended C4: a hook returning the replacement `heC4`
makes the engine raise `heC4`; a hook returning nothing makes it raise a
`TypeError`. -/
theorem C4_before_error_unconditional_witness :
    (doFetch cfgC4w 0).outcome = Except.error (JsError.httpError heC4) ∧
    (doFetch cfgC4x 0).outcome = Except.error (JsError.genericError "TypeError") :=
  ⟨(C4_before_error_unconditional cfgC4w 0 nr500w (buildEnvelope cfgC4w nr500w)
      rfl rfl rfl rfl rfl).1 heC4 rfl,
   (C4_before_error_unconditional cfgC4x 0 nr500w (buildEnvelope cfgC4x nr500w)
      rfl rfl rfl rfl rfl).2.1 rfl⟩

/-- C8: an after-response hook returning a non-empty replacement makes that
replacement the working response for every subsequent hook, and the
terminal outcome reflects it: on success the replacement is returned, and
on a native non-2xx result with throw-on-HTTP-error enabled the raised
`HTTPError` embeds the replacement, not the original envelope. -/
theorem C8_after_response_replacement (cfg : Config) (a : Nat) (nr : NativeResponse)
    (rep : ResponseEnvelope)
    (hbr : cfg.beforeRequestHooks = [])
    (htr : cfg.transport a = TransportResult.ok nr)
    (hbe : cfg.beforeErrorHooks = [])
    (hrep : runAfterResponse cfg.afterResponseHooks (buildEnvelope cfg nr) = Except.ok rep) :
    (∀ (rest : List (ResponseEnvelope → Except JsError (Option ResponseEnvelope)))
        (r : ResponseEnvelope),
        runAfterResponse ((fun _ => Except.ok (some rep)) :: rest) r = runAfterResponse rest rep) ∧
    (cfg.throwHttpErrors = true → nrOk nr = false →
        (doFetch cfg a).outcome = Except.error (JsError.httpError (mkHTTPError rep))) ∧
    (nrOk nr = true → (doFetch cfg a).outcome = Except.ok rep) := by
  refine ⟨fun rest r => rfl, ?_, ?_⟩
  · intro hth hok
    rw [doFetch_okTransport cfg a nr hbr htr, hrep]
    simp [hth, hok, hbe, runBeforeError]
  · intro hok
    rw [doFetch_okTransport cfg a nr hbr htr, hrep]
    simp [hok]

/-- Witness for C8: a replacing hook makes a failing request raise an
`HTTPError` embedding `repC8`, and a succeeding request return `repC8`. -/
theorem C8_after_response_replacement_witness :
    (doFetch cfgC8f 0).outcome = Except.error (JsError.httpError (mkHTTPError repC8)) ∧
    (doFetch cfgC8s 0).outcome = Except.ok repC8 :=
  ⟨(C8_after_response_replacement cfgC8f 0 nr500w repC8 rfl rfl rfl rfl).2.1 rfl rfl,
   (C8_after_response_replacement cfgC8s 0 nr200w repC8 rfl rfl rfl rfl).2.2 rfl⟩

/-- A falsy header read means the map holds no value or the empty
string. -/
theorem headerTruthy_false_getD (hs : Headers) (k : String)
    (h : headerTruthy hs k = false) : (hs k).getD "" = "" := by
  unfold headerTruthy at h
  cases hv : hs k with
  | none => rfl
  | some v =>
    rw [hv] at h
    simp only [bne_eq_false_iff_eq] at h
    simp [h]

/-- C9: a structured body with no attachments, no form fields and no truthy
content-type header is encoded with the configured JSON stringifier and the
content-type header is set to `application/json`; any request with at least
one attachment or form field is encoded as multipart form data holding all
form fields first and then all attachments in append order, with the
content-type header removed. -/
theorem C9_body_encoding (cfg : Config) :
    (cfg.attachments = [] → cfg.formFields = [] →
      ∀ fields, cfg.body = some (BodyValue.obj fields) →
      headerTruthy cfg.headers "content-type" = false →
      (prepareBody cfg).1 = Payload.str (cfg.stringifyJson (BodyValue.obj fields)) ∧
      headerGet (prepareBody cfg).2 "content-type" = some "application/json") ∧
    ((cfg.attachments ≠ [] ∨ cfg.formFields ≠ []) →
      (prepareBody cfg).1 = Payload.multipart
        (cfg.formFields.map (fun p => FormPart.fieldPart p.1 p.2) ++
         cfg.attachments.map (fun att => FormPart.filePart att.name att.file att.filename)) ∧
      headerGet (prepareBody cfg).2 "content-type" = none) := by
  constructor
  · intro ha hf fields hb hct
    have hget : (cfg.headers "content-type").getD "" = "" :=
      headerTruthy_false_getD cfg.headers "content-type" hct
    have hcc : containsStr "" "form-urlencoded" = false := rfl
    simp [prepareBody, ha, hf, hb, headerGet, headerSet, hget, hcc, hct]
  · intro hd
    have hcond : (!cfg.attachments.isEmpty || !cfg.formFields.isEmpty) = true := by
      rcases hd with h | h
      · cases hA : cfg.attachments with
        | nil => exact absurd hA h
        | cons x xs => simp
      · cases hF : cfg.formFields with
        | nil => exact absurd hF h
        | cons x xs => simp
    simp [prepareBody, hcond, headerGet, headerRemove]

/-- Witness for C9: the JSON branch on a structured body, and the multipart
branch on a request with one form field and one attachment. -/
theorem C9_body_encoding_witness :
    ((prepareBody cfgC9a).1 = Payload.str "JSONSTR" ∧
      headerGet (prepareBody cfgC9a).2 "content-type" = some "application/json") ∧
    ((prepareBody cfgC9b).1 = Payload.multipart
        [FormPart.fieldPart "f" "v", FormPart.filePart "file1" "DATA" (some "a.txt")] ∧
      headerGet (prepareBody cfgC9b).2 "content-type" = none) :=
  ⟨(C9_body_encoding cfgC9a).1 rfl rfl [("a", "1"), ("b", "2")] rfl rfl,
   (C9_body_encoding cfgC9b).2 (Or.inr (by simp [cfgC9b]))⟩

end SuperagentLite
